import Mathlib

/-!
Shallow embedding of `src/main.go` from go-windows-service-handler-server.

The repository's single source file holds two program variants:

* Variant A (dual execution mode): `handleStart` / `handleStop` /
  `handleStatus` built on `startWindowsService`, `stopWindowsService`,
  `getServiceStatus` and the polling loop `waitForState`, plus the
  host-supervised dispatch loop `Execute`.
* Variant B (console only): `startService` (no wait after `Start`) and
  `stopService` (an inline wait loop that starts from the status value
  returned by `Control` and sleeps before each query).

The OS service subsystem (`mgr.Connect`, `OpenService`, `Query`, `Start`,
`Control`, `Close`, `Disconnect`) is modelled by an explicit environment
`SvcEnv` describing the outcome of each primitive; time is modelled in
milliseconds, with `Query` durations given by `SvcEnv.qdur` and each
`time.Sleep(300 * time.Millisecond)` advancing the clock by 300.
Service state codes follow the Windows constants used by
`golang.org/x/sys/windows/svc`: Stopped = 1, StartPending = 2,
StopPending = 3, Running = 4.
-/

/-- State code `svc.Stopped`. -/
def svcStopped : Nat := 1

/-- State code `svc.StartPending`. -/
def svcStartPending : Nat := 2

/-- State code `svc.StopPending`. -/
def svcStopPending : Nat := 3

/-- State code `svc.Running`. -/
def svcRunning : Nat := 4

/-- The fixed target identifier `exporterSvcName = "windows_exporter"`
(variant B calls the same value `serviceName`). -/
def exporterSvcName : String := "windows_exporter"

/-- Outcomes of the OS service-control primitives for one operation.
`query k` is the result of the k-th `s.Query()` call made by the
operation (state code on success, error text on failure); `qdur k` is the
time in milliseconds that elapses while the k-th query runs. -/
structure SvcEnv where
  connect : Except String Unit
  openSvc : String → Except String Unit
  start : Except String Unit
  control : Except String Nat
  query : Nat → Except String Nat
  qdur : Nat → Nat

/-- Resource events observable against a fake subsystem: connection
acquire/release and service-handle acquire/release. -/
inductive Ev where
  | connect
  | disconnect
  | openEv (name : String)
  | close
deriving DecidableEq

/-- How one call to `waitForState` returned. -/
inductive WaitOut where
  | ok
  | queryError (e : String)
  | timeoutErr
deriving DecidableEq

/-- Instrumented result of `waitForState`: the outcome, the index of the
query on which the loop returned, the clock value when it returned, and
how many sleeps were performed. -/
structure WRes where
  out : WaitOut
  idx : Nat
  rtime : Nat
  sleeps : Nat
deriving DecidableEq

/-- The loop body of `waitForState` (src/main.go lines 165-177): query,
return the error on a failing query, return success on a match, return
the timeout error once `time.Now().After(timeout)`, otherwise sleep
300 ms and repeat.  `deadline` is the `timeout` value computed once by
the caller; `k` is the index of the next query, `t` the current clock,
`sleeps` the number of sleeps so far. -/
def waitAux (env : SvcEnv) (desired deadline : Nat) (k t sleeps : Nat) : WRes :=
  let t' := t + env.qdur k
  match env.query k with
  | .error e => ⟨.queryError e, k, t', sleeps⟩
  | .ok st =>
    if st = desired then ⟨.ok, k, t', sleeps⟩
    else if deadline < t' then ⟨.timeoutErr, k, t', sleeps⟩
    else waitAux env desired deadline (k + 1) (t' + 300) (sleeps + 1)
termination_by deadline + 1 - t
decreasing_by omega

/-- `waitForState` (src/main.go lines 163-178): the deadline is computed
exactly once as `time.Now().Add(10 * time.Second)`, i.e. `t0 + 10000`
milliseconds, and the polling loop runs against it. -/
def waitForState (env : SvcEnv) (desired t0 : Nat) : WRes :=
  waitAux env desired (t0 + 10000) 0 t0 0

/-- Convert a `WaitOut` back to the `error` value `waitForState` returns
in Go: `nil` on success, the query error itself, or the formatted
timeout error. -/
def waitErr : WaitOut → Except String Unit
  | .ok => .ok ()
  | .queryError e => .error e
  | .timeoutErr => .error "timeout waiting for service state change"

/-- `startWindowsService` (variant A, src/main.go lines 119-139):
`mgr.Connect` → `m.OpenService(name)` → `s.Start()` →
`waitForState(s, svc.Running)`, with `defer m.Disconnect()` and
`defer s.Close()` releasing the acquired resources on every exit path.
`t0` is the clock value when `waitForState` is entered.  Returns the Go
error value and the resource-event trace. -/
def startWindowsService (name : String) (env : SvcEnv) (t0 : Nat) :
    Except String Unit × List Ev :=
  match env.connect with
  | .error e => (.error e, [])
  | .ok _ =>
    match env.openSvc name with
    | .error e => (.error ("could not access service: " ++ e),
        [.connect, .disconnect])
    | .ok _ =>
      match env.start with
      | .error e => (.error ("could not start service: " ++ e),
          [.connect, .openEv name, .close, .disconnect])
      | .ok _ => (waitErr (waitForState env svcRunning t0).out,
          [.connect, .openEv name, .close, .disconnect])

/-- `stopWindowsService` (variant A, src/main.go lines 141-161):
`mgr.Connect` → `m.OpenService(name)` → `s.Control(svc.Stop)` (its
returned status is discarded) → `waitForState(s, svc.Stopped)`, with the
same deferred releases. -/
def stopWindowsService (name : String) (env : SvcEnv) (t0 : Nat) :
    Except String Unit × List Ev :=
  match env.connect with
  | .error e => (.error e, [])
  | .ok _ =>
    match env.openSvc name with
    | .error e => (.error ("could not access service: " ++ e),
        [.connect, .disconnect])
    | .ok _ =>
      match env.control with
      | .error e => (.error ("could not send stop control: " ++ e),
          [.connect, .openEv name, .close, .disconnect])
      | .ok _ => (waitErr (waitForState env svcStopped t0).out,
          [.connect, .openEv name, .close, .disconnect])

/-- The `switch status.State` of `getServiceStatus`
(src/main.go lines 198-209): the four recognized codes map to their
display texts, everything else to "Unknown". -/
def stateText (s : Nat) : String :=
  if s = svcStopped then "Stopped"
  else if s = svcStartPending then "Start Pending"
  else if s = svcStopPending then "Stop Pending"
  else if s = svcRunning then "Running"
  else "Unknown"

/-- `getServiceStatus` (src/main.go lines 180-209, identical in both
variants): `mgr.Connect` → `m.OpenService(name)` → one `s.Query()` →
map the state to display text; deferred releases as above. -/
def getServiceStatus (name : String) (env : SvcEnv) :
    Except String String × List Ev :=
  match env.connect with
  | .error e => (.error e, [])
  | .ok _ =>
    match env.openSvc name with
    | .error e => (.error ("could not access service: " ++ e),
        [.connect, .disconnect])
    | .ok _ =>
      match env.query 0 with
      | .error e => (.error e, [.connect, .openEv name, .close, .disconnect])
      | .ok st => (.ok (stateText st),
          [.connect, .openEv name, .close, .disconnect])

/-- `startService` (variant B, src/main.go lines 267-285): `mgr.Connect`
→ `m.OpenService(name)` → `s.Start()` and return `nil` immediately — no
wait and no query of the resulting state. -/
def startService (name : String) (env : SvcEnv) :
    Except String Unit × List Ev :=
  match env.connect with
  | .error e => (.error e, [])
  | .ok _ =>
    match env.openSvc name with
    | .error e => (.error ("could not access service: " ++ e),
        [.connect, .disconnect])
    | .ok _ =>
      match env.start with
      | .error e => (.error ("could not start service: " ++ e),
          [.connect, .openEv name, .close, .disconnect])
      | .ok _ => (.ok (), [.connect, .openEv name, .close, .disconnect])

/-- The inline wait loop of variant B's `stopService`
(src/main.go lines 306-316): starting from the status `st` returned by
`Control`, while `st ≠ Stopped` check the deadline, sleep 300 ms, query
again (the k-th query taking `qdur k`), and wrap a query failure. -/
def stopWaitAux (env : SvcEnv) (deadline : Nat) (k t st : Nat) :
    Except String Unit :=
  if st = svcStopped then .ok ()
  else if deadline < t then .error "timeout waiting for service to stop"
  else
    match env.query k with
    | .error e => .error ("could not retrieve service status: " ++ e)
    | .ok st' => stopWaitAux env deadline (k + 1) (t + 300 + env.qdur k) st'
termination_by deadline + 1 - t
decreasing_by omega

/-- `stopService` (variant B, src/main.go lines 287-318): `mgr.Connect`
→ `m.OpenService(name)` → `s.Control(svc.Stop)` keeping its returned
status, then the inline wait loop with `timeout := time.Now().Add(10 *
time.Second)`.  `t0` is the clock when the loop's deadline is computed. -/
def stopService (name : String) (env : SvcEnv) (t0 : Nat) :
    Except String Unit × List Ev :=
  match env.connect with
  | .error e => (.error e, [])
  | .ok _ =>
    match env.openSvc name with
    | .error e => (.error ("could not access service: " ++ e),
        [.connect, .disconnect])
    | .ok _ =>
      match env.control with
      | .error e => (.error ("could not send stop control: " ++ e),
          [.connect, .openEv name, .close, .disconnect])
      | .ok st => (stopWaitAux env (t0 + 10000) 0 t0 st,
          [.connect, .openEv name, .close, .disconnect])

/-- An HTTP response: status code and body.  `http.Error` writes the
message followed by a newline and status 500; the success paths use
`fmt.Fprintf` with a trailing `\n` and implicit status 200. -/
structure HttpResponse where
  status : Nat
  body : String
deriving DecidableEq

/-- An HTTP request, reduced to its query parameters (the handlers never
read them). -/
abbrev HttpRequest := List (String × String)

/-- `handleStart` (variant A, src/main.go lines 92-98).  The request `r`
is ignored; the target is always `exporterSvcName`. -/
def handleStart (r : HttpRequest) (env : SvcEnv) (t0 : Nat) : HttpResponse :=
  match (startWindowsService exporterSvcName env t0).1 with
  | .error e => ⟨500, "Failed to start service: " ++ e ++ "\n"⟩
  | .ok _ => ⟨200, "Service \x27" ++ exporterSvcName ++ "\x27 started successfully.\n"⟩

/-- `handleStop` (variant A, src/main.go lines 100-106). -/
def handleStop (r : HttpRequest) (env : SvcEnv) (t0 : Nat) : HttpResponse :=
  match (stopWindowsService exporterSvcName env t0).1 with
  | .error e => ⟨500, "Failed to stop service: " ++ e ++ "\n"⟩
  | .ok _ => ⟨200, "Service \x27" ++ exporterSvcName ++ "\x27 stopped successfully.\n"⟩

/-- `handleStatus` (variant A, src/main.go lines 108-115). -/
def handleStatus (r : HttpRequest) (env : SvcEnv) : HttpResponse :=
  match (getServiceStatus exporterSvcName env).1 with
  | .error e => ⟨500, "Failed to get status: " ++ e ++ "\n"⟩
  | .ok st => ⟨200, "Service \x27" ++ exporterSvcName ++ "\x27 state: " ++ st ++ "\n"⟩

/-- A host control command (`svc.Cmd`): `Interrogate`, `Stop`,
`Shutdown`, or any other value (the `default` arm of the switch in
`Execute`). -/
inductive Cmd where
  | interrogate
  | stop
  | shutdown
  | other (n : Nat)
deriving DecidableEq

/-- A reported status (`svc.Status`): state code plus the bitmask of
accepted commands. -/
structure SvcStatus where
  state : Nat
  accepts : Nat
deriving DecidableEq

/-- A `svc.ChangeRequest` received from the host: the command and the
`CurrentStatus` the host passes along with it. -/
structure ChangeRequest where
  cmd : Cmd
  currentStatus : SvcStatus
deriving DecidableEq

/-- `cmdsAccepted = svc.AcceptStop | svc.AcceptShutdown`
(src/main.go line 49); the Windows bitmask values are 1 and 4. -/
def cmdsAccepted : Nat := 1 ||| 4

/-- Whether a command exits the dispatch loop (the
`case svc.Stop, svc.Shutdown` arm with `break loop`). -/
def isTerminal : Cmd → Bool
  | .stop => true
  | .shutdown => true
  | _ => false

/-- The `for`/`select` dispatch loop of `Execute` (src/main.go lines
58-71) applied to the sequence of change requests the host delivers:
returns the statuses sent on `changes` during the loop and whether the
loop was exited by a `Stop`/`Shutdown` command.  An `Interrogate` echoes
`c.CurrentStatus`; an unrecognized command is only logged. -/
def dispatchLoop : List ChangeRequest → List SvcStatus × Bool
  | [] => ([], false)
  | c :: rest =>
    match c.cmd with
    | .interrogate =>
      let p := dispatchLoop rest
      (c.currentStatus :: p.1, p.2)
    | .stop => ([], true)
    | .shutdown => ([], true)
    | .other _ => dispatchLoop rest

/-- `Execute` (src/main.go lines 48-75), projected onto the statuses it
sends on the `changes` channel: first `{State: Running, Accepts:
cmdsAccepted}`, then whatever the dispatch loop reports, and finally
`{State: StopPending}` exactly when the loop was exited by
`Stop`/`Shutdown` (if the host never sends one, the blocking loop never
reaches that line). -/
def execute (reqs : List ChangeRequest) : List SvcStatus :=
  let p := dispatchLoop reqs
  ⟨svcRunning, cmdsAccepted⟩ ::
    (p.1 ++ if p.2 then [⟨svcStopPending, 0⟩] else [])

/-- Recognizer for connection-acquire events. -/
def isConnect : Ev → Bool
  | .connect => true
  | _ => false

/-- Recognizer for connection-release events. -/
def isDisconnect : Ev → Bool
  | .disconnect => true
  | _ => false

/-- Recognizer for handle-acquire events. -/
def isOpenEv : Ev → Bool
  | .openEv _ => true
  | _ => false

/-- Recognizer for handle-release events. -/
def isClose : Ev → Bool
  | .close => true
  | _ => false

/-- A resource trace is balanced when connection releases match
connection acquisitions and handle releases match handle acquisitions. -/
def balanced (l : List Ev) : Prop :=
  (l.filter isConnect).length = (l.filter isDisconnect).length ∧
  (l.filter isOpenEv).length = (l.filter isClose).length

/-- A fake subsystem whose service is in StartPending forever; all
primitives succeed. -/
def envStartPending : SvcEnv :=
  ⟨.ok (), fun _ => .ok (), .ok (), .ok svcStopped,
    fun _ => .ok svcStartPending, fun _ => 0⟩

/-- A fake subsystem whose service stays Stopped forever and whose
queries each take 5 seconds; all primitives succeed. -/
def envNeverRunning : SvcEnv :=
  ⟨.ok (), fun _ => .ok (), .ok (), .ok svcStopped,
    fun _ => .ok svcStopped, fun _ => 5000⟩

/-- A fake subsystem whose third query fails after two non-matching
answers. -/
def envQueryFail : SvcEnv :=
  ⟨.ok (), fun _ => .ok (), .ok (), .ok svcStopped,
    fun k => if k < 2 then .ok svcStopped else .error "query boom",
    fun _ => 0⟩

/-- A fake subsystem where `OpenService` fails with error text "x". -/
def envOpenFail : SvcEnv :=
  ⟨.ok (), fun _ => .error "x", .ok (), .ok svcStopped,
    fun _ => .ok svcStopped, fun _ => 0⟩

/-- A fake subsystem whose queries report Running but take 20 seconds
each, so the first query completes only after the 10-second deadline. -/
def envLateMatch : SvcEnv :=
  ⟨.ok (), fun _ => .ok (), .ok (), .ok svcStopped,
    fun _ => .ok svcRunning, fun _ => 20000⟩

/-- Invariants of the `waitForState` loop, by functional induction:
the returning query index is at least the starting one; the sleep count
grows by exactly one per completed iteration; every query before the
returning one answered with a non-matching state; and the outcome is
determined by the returning query (success iff it matched, the query
error iff it failed, and a timeout only after the deadline and only on a
non-matching answer). -/
theorem waitAux_char (env : SvcEnv) (desired deadline : Nat) :
    ∀ k t sleeps : Nat,
    k ≤ (waitAux env desired deadline k t sleeps).idx ∧
    (waitAux env desired deadline k t sleeps).sleeps
      = sleeps + ((waitAux env desired deadline k t sleeps).idx - k) ∧
    (∀ j, k ≤ j → j < (waitAux env desired deadline k t sleeps).idx →
      ∃ st, env.query j = .ok st ∧ st ≠ desired) ∧
    ((waitAux env desired deadline k t sleeps).out = .ok →
      env.query (waitAux env desired deadline k t sleeps).idx = .ok desired) ∧
    (∀ e, (waitAux env desired deadline k t sleeps).out = .queryError e →
      env.query (waitAux env desired deadline k t sleeps).idx = .error e) ∧
    ((waitAux env desired deadline k t sleeps).out = .timeoutErr →
      deadline < (waitAux env desired deadline k t sleeps).rtime ∧
      ∃ st, env.query (waitAux env desired deadline k t sleeps).idx = .ok st ∧
        st ≠ desired) := by
  intro k t sleeps
  induction k, t, sleeps using waitAux.induct env desired deadline with
  | case1 k t sleeps e h =>
    have hw : waitAux env desired deadline k t sleeps
        = ⟨.queryError e, k, t + env.qdur k, sleeps⟩ := by
      rw [waitAux]; simp [h]
    rw [hw]
    dsimp only
    refine ⟨Nat.le_refl _, by omega, fun j hj hj' => absurd hj' (by omega),
      fun hc => by simp at hc, fun e' he' => ?_, fun hc => by simp at hc⟩
    injection he' with he''
    rw [← he'']
    exact h
  | case2 k t sleeps h =>
    have hw : waitAux env desired deadline k t sleeps
        = ⟨.ok, k, t + env.qdur k, sleeps⟩ := by
      rw [waitAux]; simp [h]
    rw [hw]
    dsimp only
    exact ⟨Nat.le_refl _, by omega, fun j hj hj' => absurd hj' (by omega),
      fun _ => h, fun e' he' => by simp at he', fun hc => by simp at hc⟩
  | case3 k t sleeps t' st h hne htime =>
    simp only [show t' = t + env.qdur k from rfl] at htime
    have hw : waitAux env desired deadline k t sleeps
        = ⟨.timeoutErr, k, t + env.qdur k, sleeps⟩ := by
      rw [waitAux]; simp [h, hne, htime]
    rw [hw]
    dsimp only
    exact ⟨Nat.le_refl _, by omega, fun j hj hj' => absurd hj' (by omega),
      fun hc => by simp at hc, fun e' he' => by simp at he',
      fun _ => ⟨htime, st, h, hne⟩⟩
  | case4 k t sleeps t' st h hne htime ih =>
    simp only [show t' = t + env.qdur k from rfl] at htime ih
    have hw : waitAux env desired deadline k t sleeps
        = waitAux env desired deadline (k + 1) (t + env.qdur k + 300)
            (sleeps + 1) := by
      rw [waitAux]; simp [h, hne, htime]
    rw [hw]
    obtain ⟨h1, h2, h3, h4, h5, h6⟩ := ih
    refine ⟨by omega, by omega, ?_, h4, h5, h6⟩
    intro j hj hj'
    rcases Nat.eq_or_lt_of_le hj with rfl | hlt
    · exact ⟨st, h, hne⟩
    · exact h3 j hlt hj'

/-- The dispatch loop processes requests up to and excluding the first
`Stop`/`Shutdown`, echoes exactly the `Interrogate` requests as reports,
and signals termination exactly when a `Stop`/`Shutdown` arrived. -/
theorem dispatchLoop_char (reqs : List ChangeRequest) :
    dispatchLoop reqs =
      ((reqs.takeWhile fun c => !isTerminal c.cmd).filterMap
          fun c => if c.cmd = .interrogate then some c.currentStatus else none,
        reqs.any fun c => isTerminal c.cmd) := by
  induction reqs with
  | nil => rfl
  | cons c rest ih =>
    rcases hc : c.cmd with _ | _ | _ | n <;>
      simp [dispatchLoop, hc, isTerminal, ih]

/-- Claim C5: starting from the initial report of Running with accepted
commands Stop and Shutdown, the dispatch loop echoes the current status
for every Interrogate and continues, terminates at the first Stop or
Shutdown with exactly one final StopPending report (and processes
nothing after it), and silently skips any other signal. -/
theorem execute_dispatch_loop_spec (reqs : List ChangeRequest) :
    execute reqs =
      ⟨svcRunning, cmdsAccepted⟩ ::
        (((reqs.takeWhile fun c => !isTerminal c.cmd).filterMap
            fun c => if c.cmd = .interrogate then some c.currentStatus else none)
          ++ if reqs.any fun c => isTerminal c.cmd then [⟨svcStopPending, 0⟩]
            else []) := by
  simp [execute, dispatchLoop_char]

/-- Claim C6: every operation of either variant releases each connection
and each service handle it opened exactly once, on success and on every
failure path. -/
theorem operations_release_resources_exactly_once (name : String)
    (env : SvcEnv) (t0 : Nat) :
    balanced (startWindowsService name env t0).2 ∧
    balanced (stopWindowsService name env t0).2 ∧
    balanced (getServiceStatus name env).2 ∧
    balanced (startService name env).2 ∧
    balanced (stopService name env t0).2 := by
  rcases h1 : env.connect with e1 | u1 <;>
  rcases h2 : env.openSvc name with e2 | u2 <;>
  rcases h3 : env.start with e3 | u3 <;>
  rcases h4 : env.control with e4 | v4 <;>
  rcases h5 : env.query 0 with e5 | v5 <;>
    simp [startWindowsService, stopWindowsService, getServiceStatus,
      startService, stopService, balanced, h1, h2, h3, h4, h5,
      isConnect, isDisconnect, isOpenEv, isClose]

/-- Claim C3: for every subsystem behavior `waitForState` returns one of
success, a query error, or timeout; success means the returning query
matched the desired state, a query error is the failing query's own
error, and a timeout is only ever returned strictly after the deadline
`t0 + 10000` (computed once from the call-start time) on a query that
answered with a non-matching state. -/
theorem waitForState_terminates_with_deadline_semantics
    (env : SvcEnv) (desired t0 : Nat) :
    ((waitForState env desired t0).out = .ok ∨
      (∃ e, (waitForState env desired t0).out = .queryError e) ∨
      (waitForState env desired t0).out = .timeoutErr) ∧
    ((waitForState env desired t0).out = .ok →
      env.query (waitForState env desired t0).idx = .ok desired) ∧
    (∀ e, (waitForState env desired t0).out = .queryError e →
      env.query (waitForState env desired t0).idx = .error e) ∧
    ((waitForState env desired t0).out = .timeoutErr →
      t0 + 10000 < (waitForState env desired t0).rtime ∧
      ∃ st, env.query (waitForState env desired t0).idx = .ok st ∧
        st ≠ desired) := by
  simp only [waitForState]
  obtain ⟨h1, h2, h3, h4, h5, h6⟩ := waitAux_char env desired (t0 + 10000) 0 t0 0
  refine ⟨?_, h4, h5, h6⟩
  rcases hout : (waitAux env desired (t0 + 10000) 0 t0 0).out with _ | e | _
  · exact Or.inl rfl
  · exact Or.inr (Or.inl ⟨e, rfl⟩)
  · exact Or.inr (Or.inr rfl)

/-- Witness for C3: against a subsystem that never leaves Stopped, the
wait times out strictly after the 10-second deadline. -/
theorem waitForState_terminates_with_deadline_semantics_witness :
    0 + 10000 < (waitForState envNeverRunning svcRunning 0).rtime :=
  ((waitForState_terminates_with_deadline_semantics envNeverRunning
      svcRunning 0).2.2.2
    (by simp [waitForState, waitAux, envNeverRunning, svcStopped,
      svcRunning])).1

/-- Claim C4: when the very first query already reports the desired
state, `waitForState` returns success at query index 0, at time
`t0 + qdur 0`, with zero sleeps performed. -/
theorem waitForState_immediate_query_no_sleep (env : SvcEnv)
    (desired t0 : Nat) (h : env.query 0 = .ok desired) :
    waitForState env desired t0 = ⟨.ok, 0, t0 + env.qdur 0, 0⟩ := by
  rw [waitForState, waitAux]
  simp [h]

/-- Witness for C4 at a subsystem already in StartPending. -/
theorem waitForState_immediate_query_no_sleep_witness :
    envStartPending.query 0 = .ok svcStartPending ∧
    waitForState envStartPending svcStartPending 7
      = ⟨.ok, 0, 7 + envStartPending.qdur 0, 0⟩ :=
  ⟨rfl, waitForState_immediate_query_no_sleep envStartPending
    svcStartPending 7 rfl⟩

/-- Claim C9: when `waitForState` returns a query error, the error is
exactly the failing query's error, every earlier query had answered with
a non-matching state (the failing query is not retried), and the number
of sleeps performed equals the index of the failing query (no sleep
follows the failure); in particular the failure is not converted into a
timeout result. -/
theorem waitForState_query_failure_immediate (env : SvcEnv)
    (desired t0 : Nat) (e : String)
    (h : (waitForState env desired t0).out = .queryError e) :
    env.query (waitForState env desired t0).idx = .error e ∧
    (∀ j, j < (waitForState env desired t0).idx →
      ∃ st, env.query j = .ok st ∧ st ≠ desired) ∧
    (waitForState env desired t0).sleeps
      = (waitForState env desired t0).idx := by
  simp only [waitForState] at h ⊢
  obtain ⟨h1, h2, h3, h4, h5, h6⟩ := waitAux_char env desired (t0 + 10000) 0 t0 0
  exact ⟨h5 e h, fun j hj => h3 j (Nat.zero_le j) hj, by omega⟩

/-- Witness for C9: the third query fails and the error is returned at
index 2 after exactly two sleeps. -/
theorem waitForState_query_failure_immediate_witness :
    envQueryFail.query (waitForState envQueryFail svcRunning 0).idx
      = .error "query boom" ∧
    (waitForState envQueryFail svcRunning 0).sleeps
      = (waitForState envQueryFail svcRunning 0).idx :=
  ⟨(waitForState_query_failure_immediate envQueryFail svcRunning 0 "query boom"
      (by simp [waitForState, waitAux, envQueryFail, svcStopped,
        svcRunning])).1,
    (waitForState_query_failure_immediate envQueryFail svcRunning 0 "query boom"
      (by simp [waitForState, waitAux, envQueryFail, svcStopped,
        svcRunning])).2.2⟩

/-- Claim C10: the desired-state check precedes the deadline check: if
the query on which the loop returns reports the desired state the result
is success (even when that query completed after the deadline), and a
timeout result only ever occurs on a query that answered with a
non-matching state. -/
theorem waitForState_match_priority_over_deadline (env : SvcEnv)
    (desired t0 : Nat) :
    (env.query (waitForState env desired t0).idx = .ok desired →
      (waitForState env desired t0).out = .ok) ∧
    ((waitForState env desired t0).out = .timeoutErr →
      ∃ st, env.query (waitForState env desired t0).idx = .ok st ∧
        st ≠ desired) := by
  simp only [waitForState]
  obtain ⟨h1, h2, h3, h4, h5, h6⟩ := waitAux_char env desired (t0 + 10000) 0 t0 0
  refine ⟨?_, fun ht => (h6 ht).2⟩
  intro hq
  rcases hout : (waitAux env desired (t0 + 10000) 0 t0 0).out with _ | e | _
  · rfl
  · rw [h5 e hout] at hq
    exact absurd hq (by simp)
  · obtain ⟨-, st, hst, hne⟩ := h6 hout
    rw [hst] at hq
    injection hq with hq'
    exact absurd hq' hne

/-- Witness for C10: a first query that reports Running but completes
20 seconds in, well past the 10-second deadline, still yields success. -/
theorem waitForState_match_priority_over_deadline_witness :
    (waitForState envLateMatch svcRunning 0).out = .ok ∧
    0 + 10000 < (waitForState envLateMatch svcRunning 0).rtime :=
  ⟨(waitForState_match_priority_over_deadline envLateMatch svcRunning 0).1
      (by simp [waitForState, waitAux, envLateMatch, svcRunning]),
    by simp [waitForState, waitAux, envLateMatch, svcRunning]⟩

/-- A fake subsystem reporting an unrecognized state code 7 (Paused);
all primitives succeed. -/
def envUnknownState : SvcEnv :=
  ⟨.ok (), fun _ => .ok (), .ok (), .ok svcStopped,
    fun _ => .ok 7, fun _ => 0⟩

/-- Counterexample to claim C1 as stated: a /status request carrying
service-name=foo is answered with a body naming windows_exporter, not
foo — the handler never reads the parameter. -/
theorem handleStatus_ignores_service_name_param :
    handleStatus [("service-name", "foo")] envStartPending
      = ⟨200, "Service \x27windows_exporter\x27 state: Start Pending\n"⟩ ∧
    "Service \x27windows_exporter\x27 state: Start Pending\n"
      ≠ "Service \x27foo\x27 state: Start Pending\n" :=
  ⟨by simp [handleStatus, getServiceStatus, envStartPending, stateText,
      exporterSvcName, svcStopped, svcStartPending], by decide⟩

/-- Claim C1 (amended): the handlers never read any request parameter —
every response is identical for every request — and the target service
is always the fixed configured identifier windows_exporter, which is the
name a successful /status response carries. -/
theorem handlers_use_fixed_identifier (r : HttpRequest) (env : SvcEnv)
    (t0 : Nat) :
    handleStart r env t0 = handleStart [] env t0 ∧
    handleStop r env t0 = handleStop [] env t0 ∧
    handleStatus r env = handleStatus [] env ∧
    ∀ c, env.connect = .ok () → env.openSvc exporterSvcName = .ok () →
      env.query 0 = .ok c →
      handleStatus r env
        = ⟨200, "Service \x27" ++ exporterSvcName ++ "\x27 state: "
            ++ stateText c ++ "\n"⟩ := by
  refine ⟨rfl, rfl, rfl, ?_⟩
  intro c h1 h2 h3
  simp [handleStatus, getServiceStatus, h1, h2, h3]

/-- Witness for the amended C1: with service-name=foo in the request the
body still names windows_exporter. -/
theorem handlers_use_fixed_identifier_witness :
    handleStatus [("service-name", "foo")] envStartPending
      = ⟨200, "Service \x27" ++ exporterSvcName ++ "\x27 state: "
          ++ stateText svcStartPending ++ "\n"⟩ :=
  (handlers_use_fixed_identifier [("service-name", "foo")]
      envStartPending 0).2.2.2 svcStartPending rfl rfl rfl

/-- Counterexample to claim C2 as stated: with a subsystem that accepts
`Start` but whose service stays Stopped forever, variant B's
`startService` (one of the two /start paths the claim covers) reports
success immediately, while the wait variant A performs on the same
behavior times out — so a start operation can report success before the
subsystem confirms Running and before any deadline elapses. -/
theorem startService_succeeds_without_confirmation :
    (startService exporterSvcName envNeverRunning).1 = .ok () ∧
    envNeverRunning.query 0 = .ok svcStopped ∧
    svcStopped ≠ svcRunning ∧
    (startWindowsService exporterSvcName envNeverRunning 0).1
      = .error "timeout waiting for service state change" :=
  ⟨by simp [startService, envNeverRunning],
    rfl,
    by decide,
    by
      have h1 : (startWindowsService exporterSvcName envNeverRunning 0).1
          = waitErr (waitForState envNeverRunning svcRunning 0).out := by
        simp [startWindowsService, envNeverRunning]
      have h2 : waitForState envNeverRunning svcRunning 0
          = ⟨.timeoutErr, 1, 10300, 1⟩ := by
        simp [waitForState, waitAux, envNeverRunning, svcStopped, svcRunning]
      rw [h1, h2]
      rfl⟩

/-- Claim C2 (amended): variant A's `startWindowsService` performs
Connect, Open, Start, then WaitForState(Running), and reports success
only when every step succeeded and the wait's returning query confirmed
the Running state; variant B's `startService` instead reports success as
soon as `Start` is accepted, with no wait. -/
theorem startWindowsService_success_confirms_running (name : String)
    (env : SvcEnv) (t0 : Nat)
    (h : (startWindowsService name env t0).1 = .ok ()) :
    env.connect = .ok () ∧ env.openSvc name = .ok () ∧
    env.start = .ok () ∧
    env.query (waitForState env svcRunning t0).idx = .ok svcRunning := by
  rcases hc : env.connect with e | u
  · rw [startWindowsService] at h
    simp [hc] at h
  · obtain ⟨⟩ := u
    rcases ho : env.openSvc name with e | u
    · rw [startWindowsService] at h
      simp [hc, ho] at h
    · obtain ⟨⟩ := u
      rcases hs : env.start with e | u
      · rw [startWindowsService] at h
        simp [hc, ho, hs] at h
      · obtain ⟨⟩ := u
        rw [startWindowsService] at h
        simp only [hc, ho, hs] at h
        refine ⟨rfl, rfl, rfl, ?_⟩
        have hout : (waitForState env svcRunning t0).out = .ok := by
          rcases hw : (waitForState env svcRunning t0).out with _ | e | _
          · rfl
          · rw [hw] at h; simp [waitErr] at h
          · rw [hw] at h; simp [waitErr] at h
        have hch := waitAux_char env svcRunning (t0 + 10000) 0 t0 0
        exact hch.2.2.2.1 hout

/-- Witness for the amended C2: a successful run of variant A's start,
whose final wait query reports Running. -/
theorem startWindowsService_success_confirms_running_witness :
    envLateMatch.connect = .ok () ∧
    envLateMatch.openSvc exporterSvcName = .ok () ∧
    envLateMatch.start = .ok () ∧
    envLateMatch.query (waitForState envLateMatch svcRunning 3).idx
      = .ok svcRunning :=
  startWindowsService_success_confirms_running exporterSvcName
    envLateMatch 3
    (by
      have h1 : (startWindowsService exporterSvcName envLateMatch 3).1
          = waitErr (waitForState envLateMatch svcRunning 3).out := by
        simp [startWindowsService, envLateMatch]
      have h2 : waitForState envLateMatch svcRunning 3 = ⟨.ok, 0, 20003, 0⟩ := by
        simp [waitForState, waitAux, envLateMatch, svcRunning]
      rw [h1, h2]
      rfl)

/-- Counterexample to claim C7 as stated: when the /start operation
fails, the 500 body is "Failed to start service: <detail>" — it does not
name the target identifier, unlike the claimed form
"Failed to start service \x27NAME\x27: <detail>". -/
theorem failure_body_lacks_identifier :
    handleStart [] envOpenFail 0
      = ⟨500, "Failed to start service: could not access service: x\n"⟩ ∧
    "Failed to start service: could not access service: x\n"
      ≠ "Failed to start service \x27windows_exporter\x27: could not access service: x\n" :=
  ⟨by simp [handleStart, startWindowsService, envOpenFail], by decide⟩

/-- Claim C7 (amended): every failing operation is rendered as HTTP 500
whose body is the fixed prefix — "Failed to start service: ",
"Failed to stop service: ", or "Failed to get status: " — followed by
the error detail and a newline; the target identifier does not appear in
the failure body. -/
theorem failure_responses_500_without_identifier (r : HttpRequest)
    (env : SvcEnv) (t0 : Nat) (e : String) :
    ((startWindowsService exporterSvcName env t0).1 = .error e →
      handleStart r env t0
        = ⟨500, "Failed to start service: " ++ e ++ "\n"⟩) ∧
    ((stopWindowsService exporterSvcName env t0).1 = .error e →
      handleStop r env t0
        = ⟨500, "Failed to stop service: " ++ e ++ "\n"⟩) ∧
    ((getServiceStatus exporterSvcName env).1 = .error e →
      handleStatus r env
        = ⟨500, "Failed to get status: " ++ e ++ "\n"⟩) := by
  refine ⟨fun h => ?_, fun h => ?_, fun h => ?_⟩
  · simp [handleStart, h]
  · simp [handleStop, h]
  · simp [handleStatus, h]

/-- Witness for the amended C7 on a subsystem whose OpenService fails. -/
theorem failure_responses_500_without_identifier_witness :
    handleStart [] envOpenFail 0
      = ⟨500, "Failed to start service: "
          ++ "could not access service: x" ++ "\n"⟩ :=
  (failure_responses_500_without_identifier [] envOpenFail 0
      "could not access service: x").1
    (by simp [startWindowsService, envOpenFail])

/-- Claim C8: the state mapping assigns each of the four recognized
codes its display text, assigns Unknown to every other code and never an
error, and a successful /status response has status 200 and body
"Service \x27windows_exporter\x27 state: <display text>". -/
theorem status_state_mapping_total (r : HttpRequest) (env : SvcEnv)
    (c : Nat) :
    (stateText svcStopped = "Stopped"
      ∧ stateText svcStartPending = "Start Pending"
      ∧ stateText svcStopPending = "Stop Pending"
      ∧ stateText svcRunning = "Running") ∧
    (c ≠ svcStopped → c ≠ svcStartPending → c ≠ svcStopPending →
      c ≠ svcRunning → stateText c = "Unknown") ∧
    (env.connect = .ok () → env.openSvc exporterSvcName = .ok () →
      env.query 0 = .ok c →
      (getServiceStatus exporterSvcName env).1 = .ok (stateText c) ∧
      handleStatus r env = ⟨200, "Service \x27" ++ exporterSvcName
        ++ "\x27 state: " ++ stateText c ++ "\n"⟩) := by
  refine ⟨⟨rfl, rfl, rfl, rfl⟩, ?_, ?_⟩
  · intro n1 n2 n3 n4
    simp [stateText, n1, n2, n3, n4]
  · intro h1 h2 h3
    constructor
    · simp [getServiceStatus, h1, h2, h3]
    · simp [handleStatus, getServiceStatus, h1, h2, h3]

/-- Witness for C8 at the unrecognized state code 7: the status
operation succeeds and reports Unknown. -/
theorem status_state_mapping_total_witness :
    stateText 7 = "Unknown" ∧
    (getServiceStatus exporterSvcName envUnknownState).1
      = .ok (stateText 7) :=
  ⟨(status_state_mapping_total [] envUnknownState 7).2.1
      (by decide) (by decide) (by decide) (by decide),
    ((status_state_mapping_total [] envUnknownState 7).2.2
      rfl rfl rfl).1⟩
